import Mathlib

/-!
# Verification of `re_backup` (periodic one-way directory synchronization)

Shallow embedding of `src/re_backuper.py` (the sync loop `make_re_backup`)
and `src/utillity/audio_alerts.py` (the `NotificationController`).

Modelling conventions:
* A directory listing (`os.listdir`) is a `List String` of base-names; the
  Python `set(...)` wrapper only matters through membership tests, which we
  model with list membership (Python set iteration order is arbitrary; the
  list order stands for that arbitrary order).
* Filesystem and library failures are supplied by an oracle (`Env` for the
  sync loop, `AudioEnv` for the audio code): the oracle says which calls
  raise.  Code inside `try ... except` absorbs the failure; code outside
  propagates it (`raised` field / `Except`-shaped body).
* Observable behaviour of a cycle is a trace of `Event`s plus the resulting
  destination-directory contents, the `was_error` flag, and an optional
  propagated exception.
-/

/-- Which `shutil` copy API a copy operation uses.  `shutil.copy` copies the
file data and the permission mode only; `shutil.copy2` additionally copies
metadata (timestamps etc., `copystat`).  The source at
`re_backuper.py:90` calls `shutil.copy`. -/
inductive CopyApi
  | copy
  | copy2
  deriving DecidableEq, Repr

/-- Per the Python documentation: `shutil.copy2` preserves file metadata
(via `copystat`), `shutil.copy` does not (it copies data and permission
bits only). -/
def CopyApi.preservesMetadata : CopyApi → Bool
  | .copy => false
  | .copy2 => true

/-- Observable events of one sync cycle of `make_re_backup`. -/
inductive Event
  /-- `os.makedirs(DIST_DIRECTORY)` succeeded (creates parents too). -/
  | makedirs
  /-- `set(os.listdir(SRC_DIRECTORY))` snapshot. -/
  | listSrc (names : List String)
  /-- `set(os.listdir(DIST_DIRECTORY))` snapshot. -/
  | listDist (names : List String)
  /-- `shutil.copy(src_path, dist_path)` was attempted for `name`;
  `ok` records whether it succeeded. -/
  | copyAttempt (name : String) (api : CopyApi) (ok : Bool)
  /-- `log.error(...)` line written for a failed copy or remove of `name`. -/
  | errorLogged (name : String)
  /-- `os.remove(dist_path)` was attempted for `name`. -/
  | removeAttempt (name : String) (ok : Bool)
  /-- `audio_alert.alert_error()` was called (spawns a detached playback
  thread; the call itself does not raise). -/
  | alertError
  /-- `audio_alert.alert_msg(msg)` was called (synchronous text-to-speech). -/
  | alertMsg (msg : String)
  deriving DecidableEq, Repr

/-- Exceptions that can propagate out of a cycle of `make_re_backup`. -/
inductive PyError
  /-- `os.makedirs` raised. -/
  | mkdirError
  /-- `pyttsx3` raised inside `alert_msg` (no handler there). -/
  | ttsError
  deriving DecidableEq, Repr

/-- Failure oracle for one cycle: which filesystem / library calls raise. -/
structure Env where
  /-- `shutil.copy` raises for this base-name. -/
  copyFails : String → Bool
  /-- `os.remove` raises for this base-name. -/
  removeFails : String → Bool
  /-- `os.makedirs` raises. -/
  mkdirFails : Bool
  /-- the `pyttsx3` engine raises inside `alert_msg`. -/
  ttsFails : Bool

/-- The copy loop of `make_re_backup` (re_backuper.py:84-95): for each
`file` in the source snapshot, if it is not in the destination snapshot,
attempt `shutil.copy`; a failure is logged and sets `was_error`, and the
loop continues.  Returns (events, names successfully copied, was_error). -/
def copyPhase (env : Env) (distFiles : List String) :
    List String → List Event × List String × Bool
  | [] => ([], [], false)
  | file :: rest =>
    if file ∈ distFiles then
      copyPhase env distFiles rest
    else if env.copyFails file then
      let (evs, added, _) := copyPhase env distFiles rest
      (Event.copyAttempt file CopyApi.copy false :: Event.errorLogged file :: evs,
        added, true)
    else
      let (evs, added, err) := copyPhase env distFiles rest
      (Event.copyAttempt file CopyApi.copy true :: evs, file :: added, err)

/-- The delete loop of `make_re_backup` (re_backuper.py:98-107): for each
`file` in the destination snapshot, if it is not in the source snapshot,
attempt `os.remove`; a failure is logged and sets `was_error`, and the loop
continues.  `dist` is the actual destination contents being mutated.
Returns (events, destination contents afterwards, was_error). -/
def removePhase (env : Env) (srcFiles : List String) :
    List String → List String → List Event × List String × Bool
  | [], dist => ([], dist, false)
  | file :: rest, dist =>
    if file ∈ srcFiles then
      removePhase env srcFiles rest dist
    else if env.removeFails file then
      let (evs, dist', _) := removePhase env srcFiles rest dist
      (Event.removeAttempt file false :: Event.errorLogged file :: evs, dist', true)
    else
      let (evs, dist', err) :=
        removePhase env srcFiles rest (dist.filter (fun g => g ≠ file))
      (Event.removeAttempt file true :: evs, dist', err)

/-- `NotificationController.alert_msg` (audio_alerts.py:136-148): start the
`pyttsx3` engine, speak, and wait.  There is no `try` in its body, so an
engine failure propagates to the caller. -/
def alert_msg (env : Env) (message : String) : Except PyError (List Event) :=
  if env.ttsFails then Except.error PyError.ttsError
  else Except.ok [Event.alertMsg message]

/-- Result of running the body of one cycle of the `while True` loop. -/
structure CycleOutcome where
  /-- trace of observable events, in program order, up to a raise. -/
  events : List Event
  /-- destination-directory contents after the cycle. -/
  dist : List String
  /-- the cycle's `was_error` flag. -/
  wasError : Bool
  /-- exception propagating out of the cycle body, if any. -/
  raised : Option PyError
  deriving Repr

/-- The part of the cycle after the destination directory is known to
exist: take the two snapshots, run the copy loop, run the delete loop, and
if `was_error` was set call `alert_error()` and then `alert_msg("backup
error")` (re_backuper.py:78-111).  `alert_error` spawns a detached thread
and cannot raise; `alert_msg` can. -/
def runCycleBody (env : Env) (src d : List String) (pre : List Event) :
    CycleOutcome :=
  let cp := copyPhase env d src
  let rp := removePhase env src d (d ++ cp.2.1)
  let was_error := cp.2.2 || rp.2.2
  let baseEvs := pre ++ Event.listSrc src :: Event.listDist d :: (cp.1 ++ rp.1)
  if was_error then
    match alert_msg env "backup error" with
    | Except.error e =>
      { events := baseEvs ++ [Event.alertError, Event.alertMsg "backup error"]
        dist := rp.2.1, wasError := true, raised := some e }
    | Except.ok msgEvs =>
      { events := baseEvs ++ Event.alertError :: msgEvs
        dist := rp.2.1, wasError := true, raised := none }
  else
    { events := baseEvs, dist := rp.2.1, wasError := false, raised := none }

/-- One cycle of `make_re_backup` (re_backuper.py:73-112).  `distState` is
`none` when the destination directory does not exist; then
`os.makedirs` is called first, outside any `try`, so its failure
propagates; on success the directory is empty. -/
def runCycle (env : Env) (src : List String) (distState : Option (List String)) :
    CycleOutcome :=
  match distState with
  | none =>
    if env.mkdirFails then
      { events := [], dist := [], wasError := false, raised := some PyError.mkdirError }
    else
      runCycleBody env src [] [Event.makedirs]
  | some d => runCycleBody env src d []

/-- The `while True` loop of `make_re_backup`, bounded to finitely many
cycles; each cycle gets its own failure oracle and source listing (the
source directory may change between cycles).  The loop stops early only
when a cycle raises. -/
def runLoop : List (Env × List String) → Option (List String) →
    List Event × Option PyError
  | [], _ => ([], none)
  | (env, src) :: rest, distState =>
    let out := runCycle env src distState
    match out.raised with
    | some e => (out.events, some e)
    | none =>
      let (evs, r) := runLoop rest (some out.dist)
      (out.events ++ evs, r)

/-- The destination snapshot a cycle works from: the listed contents when
the directory exists, the empty listing right after `os.makedirs`. -/
def distSnapshot : Option (List String) → List String
  | none => []
  | some d => d

/-! ## Event classifiers and counters -/

/-- The name of a copy attempt, if the event is one. -/
def copyAttemptNameOf : Event → Option String
  | Event.copyAttempt n _ _ => some n
  | _ => none

/-- The name of a remove attempt, if the event is one. -/
def removeAttemptNameOf : Event → Option String
  | Event.removeAttempt n _ => some n
  | _ => none

/-- Names of all copy attempts in a trace, in order. -/
def copyAttemptNames (evs : List Event) : List String :=
  evs.filterMap copyAttemptNameOf

/-- Names of all remove attempts in a trace, in order. -/
def removeAttemptNames (evs : List Event) : List String :=
  evs.filterMap removeAttemptNameOf

/-- Is this event a failed copy or remove attempt? -/
def isFailedAttempt : Event → Bool
  | Event.copyAttempt _ _ ok => !ok
  | Event.removeAttempt _ ok => !ok
  | _ => false

/-- Is this event an `alert_error()` call? -/
def isAlertError : Event → Bool
  | Event.alertError => true
  | _ => false

/-- Is this event an `alert_msg(...)` call? -/
def isAlertMsg : Event → Bool
  | Event.alertMsg _ => true
  | _ => false

/-- Number of failed copy/remove attempts in a trace. -/
def numFailedAttempts (evs : List Event) : Nat :=
  (evs.filter isFailedAttempt).length

/-- Number of `alert_error()` calls in a trace. -/
def numAlertErrorEvents (evs : List Event) : Nat :=
  (evs.filter isAlertError).length

/-- Number of `alert_msg(...)` calls in a trace. -/
def numAlertMsgEvents (evs : List Event) : Nat :=
  (evs.filter isAlertMsg).length

/-- Events a cycle emits before taking the snapshots: the `makedirs` event
when the destination directory had to be created first. -/
def cyclePre : Option (List String) → List Event
  | none => [Event.makedirs]
  | some _ => []

/-! ## The audio subsystem (`audio_alerts.py`) -/

/-- State of the `pygame.mixer` audio-output resource. -/
structure MixerState where
  /-- `pygame.mixer.init()` has been called without a matching
  `pygame.mixer.quit()`. -/
  initialized : Bool
  deriving DecidableEq, Repr

/-- Failure oracle for the audio code: which `pygame` calls raise. -/
structure AudioEnv where
  /-- `pygame.mixer.init()` raises (audio device unavailable).  Calling
  `init` again while the mixer is already initialized is a safe no-op in
  pygame, so this only applies to a fresh initialization. -/
  initFails : Bool
  /-- `pygame.mixer.music.load(path)` raises for this path (missing file or
  decode failure). -/
  loadFails : String → Bool

/-- The body of `NotificationController.alert_sound`
(audio_alerts.py:161-175), i.e. the code inside the `try`:
`init`; `load`; `play`; poll `get_busy` until done; `stop`; `quit`;
`return True`.  `Except.error s` means an exception was raised with the
mixer in state `s`; note `pygame.mixer.quit()` is only reached after a
fully successful playback. -/
def alert_soundBody (env : AudioEnv) (s : MixerState) (path : String) :
    Except MixerState MixerState :=
  if s.initialized = false ∧ env.initFails then Except.error s
  else
    let s1 : MixerState := ⟨true⟩
    if env.loadFails path then Except.error s1
    else Except.ok ⟨false⟩

/-- `NotificationController.alert_sound` (audio_alerts.py:150-179): run the
body under `try`; any exception is swallowed and `False` returned, leaving
the mixer in whatever state it was in at the raise point. -/
def alert_sound (env : AudioEnv) (s : MixerState) (path : String) :
    Bool × MixerState :=
  match alert_soundBody env s path with
  | Except.ok s' => (true, s')
  | Except.error s' => (false, s')

/-- `os.path.basename`: the final path component (Windows `ntpath` splits
on both separators). -/
def os_path_basename (p : String) : String :=
  (p.split (fun c => c == '/' || c == '\\')).getLastD ""

/-- The fields of `NotificationController` set by `__init__`
(audio_alerts.py:98-134): the three default sound paths as given, and the
three custom override paths, each the base-name of the corresponding
default (looked up relative to the current working directory). -/
structure NotificationController where
  custom_success_sound_path : String
  custom_warning_sound_path : String
  custom_error_sound_path : String
  default_success_sound_path : String
  default_error_sound_path : String
  default_warning_sound_path : String
  deriving DecidableEq, Repr

/-- `NotificationController.__init__` (audio_alerts.py:98-134); the `log`
collaborator carries no behaviour we model.  Argument order as in the
source: success, error, warning. -/
def NotificationController.init
    (default_success_sound_path default_error_sound_path
      default_warning_sound_path : String) : NotificationController :=
  { custom_success_sound_path := os_path_basename default_success_sound_path
    custom_warning_sound_path := os_path_basename default_warning_sound_path
    custom_error_sound_path := os_path_basename default_error_sound_path
    default_success_sound_path := default_success_sound_path
    default_error_sound_path := default_error_sound_path
    default_warning_sound_path := default_warning_sound_path }

/-- `NotificationController._alert_success` (audio_alerts.py:181-191),
instrumented with the list of paths passed to `alert_sound`, in order:
play the custom sound; only if that returns `False`, play the default.
Returns (attempted paths, result, mixer state). -/
def NotificationController.alertSuccessBody (nc : NotificationController)
    (env : AudioEnv) (s : MixerState) : List String × Bool × MixerState :=
  let first := alert_sound env s nc.custom_success_sound_path
  if first.1 = false then
    let second := alert_sound env first.2 nc.default_success_sound_path
    ([nc.custom_success_sound_path, nc.default_success_sound_path], second.1, second.2)
  else ([nc.custom_success_sound_path], true, first.2)

/-- `NotificationController._alert_warning` (audio_alerts.py:211-217),
instrumented like `alertSuccessBody`; the source discards the second
result (returns `None`), which does not change which paths are attempted. -/
def NotificationController.alertWarningBody (nc : NotificationController)
    (env : AudioEnv) (s : MixerState) : List String × Bool × MixerState :=
  let first := alert_sound env s nc.custom_warning_sound_path
  if first.1 = false then
    let second := alert_sound env first.2 nc.default_warning_sound_path
    ([nc.custom_warning_sound_path, nc.default_warning_sound_path], second.1, second.2)
  else ([nc.custom_warning_sound_path], true, first.2)

/-- `NotificationController._alert_error` (audio_alerts.py:219-228),
instrumented like `alertSuccessBody`.  The public `alert_success` /
`alert_warning` / `alert_error` wrappers only spawn a detached thread
running these bodies and sleep one second; the played paths are those of
the bodies. -/
def NotificationController.alertErrorBody (nc : NotificationController)
    (env : AudioEnv) (s : MixerState) : List String × Bool × MixerState :=
  let first := alert_sound env s nc.custom_error_sound_path
  if first.1 = false then
    let second := alert_sound env first.2 nc.default_error_sound_path
    ([nc.custom_error_sound_path, nc.default_error_sound_path], second.1, second.2)
  else ([nc.custom_error_sound_path], true, first.2)

/-! ## Phase lemmas -/

theorem copyPhase_events_shape (env : Env) (ds fs : List String) :
    ∀ e ∈ (copyPhase env ds fs).1,
      isAlertError e = false ∧ isAlertMsg e = false := by
  induction fs with
  | nil => simp [copyPhase]
  | cons file rest ih =>
    by_cases hd : file ∈ ds
    · simpa [copyPhase, hd] using ih
    · by_cases hf : env.copyFails file
      · simpa [copyPhase, hd, hf, isAlertError, isAlertMsg] using ih
      · simpa [copyPhase, hd, hf, isAlertError, isAlertMsg] using ih

theorem removePhase_events_shape (env : Env) (srcS fs : List String) :
    ∀ dist : List String, ∀ e ∈ (removePhase env srcS fs dist).1,
      isAlertError e = false ∧ isAlertMsg e = false := by
  induction fs with
  | nil => simp [removePhase]
  | cons file rest ih =>
    intro dist
    by_cases hs : file ∈ srcS
    · simpa [removePhase, hs] using ih dist
    · by_cases hf : env.removeFails file
      · simpa [removePhase, hs, hf, isAlertError, isAlertMsg] using ih dist
      · simpa [removePhase, hs, hf, isAlertError, isAlertMsg] using
          ih (dist.filter (fun g => g ≠ file))

theorem numAlertErrorEvents_eq_zero {evs : List Event}
    (h : ∀ e ∈ evs, isAlertError e = false) : numAlertErrorEvents evs = 0 := by
  simp only [numAlertErrorEvents, List.length_eq_zero, List.filter_eq_nil_iff]
  intro e he
  simp [h e he]

theorem numAlertMsgEvents_eq_zero {evs : List Event}
    (h : ∀ e ∈ evs, isAlertMsg e = false) : numAlertMsgEvents evs = 0 := by
  simp only [numAlertMsgEvents, List.length_eq_zero, List.filter_eq_nil_iff]
  intro e he
  simp [h e he]

theorem copyPhase_failedAttempts (env : Env) (ds fs : List String) :
    numFailedAttempts (copyPhase env ds fs).1 = 0
      ↔ (copyPhase env ds fs).2.2 = false := by
  induction fs with
  | nil => simp [copyPhase, numFailedAttempts]
  | cons file rest ih =>
    by_cases hd : file ∈ ds
    · simpa [copyPhase, hd] using ih
    · by_cases hf : env.copyFails file
      · simp [copyPhase, hd, hf, numFailedAttempts, List.filter_cons,
          isFailedAttempt]
      · simpa [copyPhase, hd, hf, numFailedAttempts, List.filter_cons,
          isFailedAttempt] using ih

theorem removePhase_failedAttempts (env : Env) (srcS fs : List String) :
    ∀ dist : List String,
      numFailedAttempts (removePhase env srcS fs dist).1 = 0
        ↔ (removePhase env srcS fs dist).2.2 = false := by
  induction fs with
  | nil => simp [removePhase, numFailedAttempts]
  | cons file rest ih =>
    intro dist
    by_cases hs : file ∈ srcS
    · simpa [removePhase, hs] using ih dist
    · by_cases hf : env.removeFails file
      · simp [removePhase, hs, hf, numFailedAttempts, List.filter_cons,
          isFailedAttempt]
      · simpa [removePhase, hs, hf, numFailedAttempts, List.filter_cons,
          isFailedAttempt] using ih (dist.filter (fun g => g ≠ file))

/-! ## Decomposing one cycle -/

theorem runCycleBody_wasError (env : Env) (src d : List String)
    (pre : List Event) :
    (runCycleBody env src d pre).wasError
      = ((copyPhase env d src).2.2
          || (removePhase env src d (d ++ (copyPhase env d src).2.1)).2.2) := by
  unfold runCycleBody alert_msg
  cases henv : env.ttsFails <;>
    by_cases he : ((copyPhase env d src).2.2
        || (removePhase env src d (d ++ (copyPhase env d src).2.1)).2.2) = true <;>
      simp [he, henv]

theorem runCycleBody_dist (env : Env) (src d : List String)
    (pre : List Event) :
    (runCycleBody env src d pre).dist
      = (removePhase env src d (d ++ (copyPhase env d src).2.1)).2.1 := by
  unfold runCycleBody alert_msg
  cases henv : env.ttsFails <;>
    by_cases he : ((copyPhase env d src).2.2
        || (removePhase env src d (d ++ (copyPhase env d src).2.1)).2.2) = true <;>
      simp [he, henv]

theorem runCycleBody_events (env : Env) (src d : List String)
    (pre : List Event) :
    (runCycleBody env src d pre).events
      = (pre ++ Event.listSrc src :: Event.listDist d ::
          ((copyPhase env d src).1
            ++ (removePhase env src d (d ++ (copyPhase env d src).2.1)).1))
        ++ (if ((copyPhase env d src).2.2
              || (removePhase env src d (d ++ (copyPhase env d src).2.1)).2.2)
            then [Event.alertError, Event.alertMsg "backup error"] else []) := by
  unfold runCycleBody alert_msg
  cases henv : env.ttsFails <;>
    by_cases he : ((copyPhase env d src).2.2
        || (removePhase env src d (d ++ (copyPhase env d src).2.1)).2.2) = true <;>
      simp [he, henv]

theorem runCycleBody_raised (env : Env) (src d : List String)
    (pre : List Event) :
    (runCycleBody env src d pre).raised
      = (if (((copyPhase env d src).2.2
            || (removePhase env src d (d ++ (copyPhase env d src).2.1)).2.2)
            && env.ttsFails)
         then some PyError.ttsError else none) := by
  unfold runCycleBody alert_msg
  cases henv : env.ttsFails <;>
    by_cases he : ((copyPhase env d src).2.2
        || (removePhase env src d (d ++ (copyPhase env d src).2.1)).2.2) = true <;>
      simp [he, henv]

theorem runCycle_eq_body (env : Env) (src : List String)
    (distState : Option (List String))
    (hmk : distState = none → env.mkdirFails = false) :
    runCycle env src distState
      = runCycleBody env src (distSnapshot distState) (cyclePre distState) := by
  cases distState with
  | none => simp [runCycle, distSnapshot, cyclePre, hmk rfl]
  | some d => rfl

theorem runCycle_mkdirFail (env : Env) (src : List String)
    (h : env.mkdirFails = true) :
    runCycle env src none
      = ⟨[], [], false, some PyError.mkdirError⟩ := by
  simp [runCycle, h]

theorem runLoop_cons_raise {env : Env} {src : List String}
    {rest : List (Env × List String)} {distState : Option (List String)}
    {e : PyError} (h : (runCycle env src distState).raised = some e) :
    runLoop ((env, src) :: rest) distState
      = ((runCycle env src distState).events, some e) := by
  simp [runLoop, h]

/-! ## Characterization lemmas for the two phases -/

theorem copyAttemptNameOf_eq_some {e : Event} {n : String} :
    copyAttemptNameOf e = some n ↔ ∃ a ok, e = Event.copyAttempt n a ok := by
  cases e <;> simp [copyAttemptNameOf]

theorem removeAttemptNameOf_eq_some {e : Event} {n : String} :
    removeAttemptNameOf e = some n ↔ ∃ ok, e = Event.removeAttempt n ok := by
  cases e <;> simp [removeAttemptNameOf]

theorem mem_copyAttemptNames_iff {n : String} {evs : List Event} :
    n ∈ copyAttemptNames evs ↔ ∃ a ok, Event.copyAttempt n a ok ∈ evs := by
  unfold copyAttemptNames
  rw [List.mem_filterMap]
  constructor
  · rintro ⟨e, he, hsome⟩
    rcases copyAttemptNameOf_eq_some.mp hsome with ⟨a, ok, rfl⟩
    exact ⟨a, ok, he⟩
  · rintro ⟨a, ok, he⟩
    exact ⟨Event.copyAttempt n a ok, he, rfl⟩

theorem mem_removeAttemptNames_iff {n : String} {evs : List Event} :
    n ∈ removeAttemptNames evs ↔ ∃ ok, Event.removeAttempt n ok ∈ evs := by
  unfold removeAttemptNames
  rw [List.mem_filterMap]
  constructor
  · rintro ⟨e, he, hsome⟩
    rcases removeAttemptNameOf_eq_some.mp hsome with ⟨ok, rfl⟩
    exact ⟨ok, he⟩
  · rintro ⟨ok, he⟩
    exact ⟨Event.removeAttempt n ok, he, rfl⟩

theorem copyAttemptNames_cons (e : Event) (evs : List Event) :
    copyAttemptNames (e :: evs)
      = match copyAttemptNameOf e with
        | some n => n :: copyAttemptNames evs
        | none => copyAttemptNames evs := by
  simp [copyAttemptNames, List.filterMap_cons]
  cases copyAttemptNameOf e <;> simp

theorem removeAttemptNames_cons (e : Event) (evs : List Event) :
    removeAttemptNames (e :: evs)
      = match removeAttemptNameOf e with
        | some n => n :: removeAttemptNames evs
        | none => removeAttemptNames evs := by
  simp [removeAttemptNames, List.filterMap_cons]
  cases removeAttemptNameOf e <;> simp

theorem copyPhase_attemptNames (env : Env) (ds fs : List String) :
    copyAttemptNames (copyPhase env ds fs).1
      = fs.filter (fun f => !decide (f ∈ ds)) := by
  induction fs with
  | nil => simp [copyPhase, copyAttemptNames]
  | cons file rest ih =>
    by_cases hd : file ∈ ds
    · simpa [copyPhase, hd, List.filter_cons] using ih
    · by_cases hf : env.copyFails file <;>
        simpa [copyPhase, hd, hf, copyAttemptNames_cons, copyAttemptNameOf,
          List.filter_cons] using ih

theorem removePhase_attemptNames (env : Env) (srcS fs : List String) :
    ∀ dist : List String,
      removeAttemptNames (removePhase env srcS fs dist).1
        = fs.filter (fun f => !decide (f ∈ srcS)) := by
  induction fs with
  | nil => intro dist; simp [removePhase, removeAttemptNames]
  | cons file rest ih =>
    intro dist
    by_cases hs : file ∈ srcS
    · simpa [removePhase, hs, List.filter_cons] using ih dist
    · by_cases hf : env.removeFails file
      · simpa [removePhase, hs, hf, removeAttemptNames_cons, removeAttemptNameOf,
          List.filter_cons] using ih dist
      · simpa [removePhase, hs, hf, removeAttemptNames_cons, removeAttemptNameOf,
          List.filter_cons] using ih (dist.filter (fun g => g ≠ file))

theorem copyPhase_removeAttemptNames (env : Env) (ds fs : List String) :
    removeAttemptNames (copyPhase env ds fs).1 = [] := by
  induction fs with
  | nil => simp [copyPhase, removeAttemptNames]
  | cons file rest ih =>
    by_cases hd : file ∈ ds
    · simpa [copyPhase, hd] using ih
    · by_cases hf : env.copyFails file <;>
        simpa [copyPhase, hd, hf, removeAttemptNames_cons, removeAttemptNameOf]
          using ih

theorem removePhase_copyAttemptNames (env : Env) (srcS fs : List String) :
    ∀ dist : List String,
      copyAttemptNames (removePhase env srcS fs dist).1 = [] := by
  induction fs with
  | nil => intro dist; simp [removePhase, copyAttemptNames]
  | cons file rest ih =>
    intro dist
    by_cases hs : file ∈ srcS
    · simpa [removePhase, hs] using ih dist
    · by_cases hf : env.removeFails file
      · simpa [removePhase, hs, hf, copyAttemptNames_cons, copyAttemptNameOf]
          using ih dist
      · simpa [removePhase, hs, hf, copyAttemptNames_cons, copyAttemptNameOf]
          using ih (dist.filter (fun g => g ≠ file))

theorem copyPhase_copyAttempt_mem (env : Env) (ds fs : List String)
    (n : String) (a : CopyApi) (ok : Bool) :
    Event.copyAttempt n a ok ∈ (copyPhase env ds fs).1
      ↔ n ∈ fs ∧ n ∉ ds ∧ a = CopyApi.copy ∧ ok = !env.copyFails n := by
  induction fs with
  | nil => simp [copyPhase]
  | cons file rest ih =>
    by_cases hd : file ∈ ds
    · simp only [copyPhase, if_pos hd, ih, List.mem_cons]
      aesop
    · by_cases hf : env.copyFails file
      · simp only [copyPhase, if_neg hd, if_pos hf, List.mem_cons,
          Event.copyAttempt.injEq, ih]
        aesop
      · simp only [copyPhase, if_neg hd, if_neg hf, List.mem_cons,
          Event.copyAttempt.injEq, ih]
        aesop

theorem copyPhase_errorLogged_mem (env : Env) (ds fs : List String)
    (n : String) :
    Event.errorLogged n ∈ (copyPhase env ds fs).1
      ↔ n ∈ fs ∧ n ∉ ds ∧ env.copyFails n = true := by
  induction fs with
  | nil => simp [copyPhase]
  | cons file rest ih =>
    by_cases hd : file ∈ ds
    · simp only [copyPhase, if_pos hd, ih, List.mem_cons]
      aesop
    · by_cases hf : env.copyFails file
      · simp only [copyPhase, if_neg hd, if_pos hf, List.mem_cons,
          Event.errorLogged.injEq, ih]
        aesop
      · simp only [copyPhase, if_neg hd, if_neg hf, List.mem_cons,
          Event.errorLogged.injEq, ih]
        aesop

theorem removePhase_removeAttempt_mem (env : Env) (srcS fs : List String)
    (n : String) (ok : Bool) :
    ∀ dist : List String,
      Event.removeAttempt n ok ∈ (removePhase env srcS fs dist).1
        ↔ n ∈ fs ∧ n ∉ srcS ∧ ok = !env.removeFails n := by
  induction fs with
  | nil => intro dist; simp [removePhase]
  | cons file rest ih =>
    intro dist
    by_cases hs : file ∈ srcS
    · simp only [removePhase, if_pos hs, ih dist, List.mem_cons]
      aesop
    · by_cases hf : env.removeFails file
      · simp only [removePhase, if_neg hs, if_pos hf, List.mem_cons,
          Event.removeAttempt.injEq, ih dist]
        aesop
      · simp only [removePhase, if_neg hs, if_neg hf, List.mem_cons,
          Event.removeAttempt.injEq, ih (dist.filter (fun g => g ≠ file))]
        aesop

theorem removePhase_errorLogged_mem (env : Env) (srcS fs : List String)
    (n : String) :
    ∀ dist : List String,
      Event.errorLogged n ∈ (removePhase env srcS fs dist).1
        ↔ n ∈ fs ∧ n ∉ srcS ∧ env.removeFails n = true := by
  induction fs with
  | nil => intro dist; simp [removePhase]
  | cons file rest ih =>
    intro dist
    by_cases hs : file ∈ srcS
    · simp only [removePhase, if_pos hs, ih dist, List.mem_cons]
      aesop
    · by_cases hf : env.removeFails file
      · simp only [removePhase, if_neg hs, if_pos hf, List.mem_cons,
          Event.errorLogged.injEq, ih dist]
        aesop
      · simp only [removePhase, if_neg hs, if_neg hf, List.mem_cons,
          Event.errorLogged.injEq, ih (dist.filter (fun g => g ≠ file))]
        aesop

theorem copyPhase_err_iff (env : Env) (ds fs : List String) :
    (copyPhase env ds fs).2.2 = true
      ↔ ∃ n, n ∈ fs ∧ n ∉ ds ∧ env.copyFails n = true := by
  induction fs with
  | nil => simp [copyPhase]
  | cons file rest ih =>
    by_cases hd : file ∈ ds
    · simp only [copyPhase, if_pos hd, ih, List.mem_cons]
      aesop
    · by_cases hf : env.copyFails file
      · simp only [copyPhase, if_neg hd, if_pos hf, List.mem_cons, ih]
        aesop
      · simp only [copyPhase, if_neg hd, if_neg hf, List.mem_cons, ih]
        aesop

theorem removePhase_err_iff (env : Env) (srcS fs : List String) :
    ∀ dist : List String,
      (removePhase env srcS fs dist).2.2 = true
        ↔ ∃ n, n ∈ fs ∧ n ∉ srcS ∧ env.removeFails n = true := by
  induction fs with
  | nil => intro dist; simp [removePhase]
  | cons file rest ih =>
    intro dist
    by_cases hs : file ∈ srcS
    · simp only [removePhase, if_pos hs, ih dist, List.mem_cons]
      aesop
    · by_cases hf : env.removeFails file
      · simp only [removePhase, if_neg hs, if_pos hf, List.mem_cons, ih dist]
        aesop
      · simp only [removePhase, if_neg hs, if_neg hf, List.mem_cons,
          ih (dist.filter (fun g => g ≠ file))]
        aesop

theorem removePhase_dist_mem (env : Env) (srcS fs : List String) (n : String) :
    ∀ dist : List String,
      n ∈ (removePhase env srcS fs dist).2.1
        ↔ n ∈ dist ∧ ¬(n ∈ fs ∧ n ∉ srcS ∧ env.removeFails n = false) := by
  induction fs with
  | nil => intro dist; simp [removePhase]
  | cons file rest ih =>
    intro dist
    by_cases hs : file ∈ srcS
    · simp only [removePhase, if_pos hs, ih dist, List.mem_cons]
      aesop
    · by_cases hf : env.removeFails file
      · simp only [removePhase, if_neg hs, if_pos hf, List.mem_cons, ih dist]
        aesop
      · simp only [removePhase, if_neg hs, if_neg hf, List.mem_cons,
          ih (dist.filter (fun g => g ≠ file)), List.mem_filter]
        aesop

theorem copyPhase_added_mem (env : Env) (ds fs : List String) (n : String) :
    n ∈ (copyPhase env ds fs).2.1
      ↔ n ∈ fs ∧ n ∉ ds ∧ env.copyFails n = false := by
  induction fs with
  | nil => simp [copyPhase]
  | cons file rest ih =>
    by_cases hd : file ∈ ds
    · simp only [copyPhase, if_pos hd, ih, List.mem_cons]
      constructor
      · rintro ⟨h1, h2, h3⟩; exact ⟨Or.inr h1, h2, h3⟩
      · rintro ⟨h1 | h1, h2, h3⟩
        · subst h1; exact absurd hd h2
        · exact ⟨h1, h2, h3⟩
    · by_cases hf : env.copyFails file
      · simp only [copyPhase, if_neg hd, if_pos hf, ih, List.mem_cons]
        constructor
        · rintro ⟨h1, h2, h3⟩; exact ⟨Or.inr h1, h2, h3⟩
        · rintro ⟨h1 | h1, h2, h3⟩
          · subst h1; rw [hf] at h3; cases h3
          · exact ⟨h1, h2, h3⟩
      · simp only [copyPhase, if_neg hd, if_neg hf, List.mem_cons, ih]
        constructor
        · rintro (h1 | ⟨h1, h2, h3⟩)
          · subst h1
            exact ⟨Or.inl rfl, hd, Bool.eq_false_iff.mpr hf⟩
          · exact ⟨Or.inr h1, h2, h3⟩
        · rintro ⟨h1 | h1, h2, h3⟩
          · subst h1; exact Or.inl rfl
          · exact Or.inr ⟨h1, h2, h3⟩

theorem copyAttemptNames_nil : copyAttemptNames [] = [] := rfl

theorem removeAttemptNames_nil : removeAttemptNames [] = [] := rfl

theorem copyAttemptNames_append (l₁ l₂ : List Event) :
    copyAttemptNames (l₁ ++ l₂)
      = copyAttemptNames l₁ ++ copyAttemptNames l₂ := by
  simp [copyAttemptNames]

theorem removeAttemptNames_append (l₁ l₂ : List Event) :
    removeAttemptNames (l₁ ++ l₂)
      = removeAttemptNames l₁ ++ removeAttemptNames l₂ := by
  simp [removeAttemptNames]

theorem numFailedAttempts_append (l₁ l₂ : List Event) :
    numFailedAttempts (l₁ ++ l₂)
      = numFailedAttempts l₁ + numFailedAttempts l₂ := by
  simp [numFailedAttempts]

theorem numAlertErrorEvents_append (l₁ l₂ : List Event) :
    numAlertErrorEvents (l₁ ++ l₂)
      = numAlertErrorEvents l₁ + numAlertErrorEvents l₂ := by
  simp [numAlertErrorEvents]

theorem numAlertMsgEvents_append (l₁ l₂ : List Event) :
    numAlertMsgEvents (l₁ ++ l₂)
      = numAlertMsgEvents l₁ + numAlertMsgEvents l₂ := by
  simp [numAlertMsgEvents]

/-! ## Claims about the sync cycle -/

/-- Claim C1: for every pair of source and destination name sets
snapshotted at the start of a cycle, after the copy and delete phases of
that one cycle complete (and no copy or delete operation fails), the
destination directory contains exactly the names of the source set: every
source name is present and no name outside the source set remains. -/
theorem cycle_dist_matches_source (env : Env) (src : List String)
    (distState : Option (List String))
    (hmk : distState = none → env.mkdirFails = false)
    (hcopy : ∀ f, f ∈ src → f ∉ distSnapshot distState → env.copyFails f = false)
    (hrem : ∀ f, f ∈ distSnapshot distState → f ∉ src → env.removeFails f = false)
    (n : String) :
    n ∈ (runCycle env src distState).dist ↔ n ∈ src := by
  rw [runCycle_eq_body env src distState hmk, runCycleBody_dist]
  set d := distSnapshot distState with hd
  rw [removePhase_dist_mem env src d n (d ++ (copyPhase env d src).2.1)]
  constructor
  · rintro ⟨hmem, hnot⟩
    rcases List.mem_append.mp hmem with hin | hadd
    · by_contra hns
      exact hnot ⟨hin, hns, hrem n hin hns⟩
    · exact ((copyPhase_added_mem env d src n).mp hadd).1
  · intro hn
    by_cases hind : n ∈ d
    · exact ⟨List.mem_append.mpr (Or.inl hind), fun h => h.2.1 hn⟩
    · exact ⟨List.mem_append.mpr (Or.inr
        ((copyPhase_added_mem env d src n).mpr ⟨hn, hind, hcopy n hn hind⟩)),
        fun h => h.2.1 hn⟩

/-- Witness for C1 at the spec's concrete scenario: source
`{a.txt, b.txt}`, destination `{b.txt, c.txt}`, nothing fails. -/
theorem cycle_dist_matches_source_witness :
    ("a.txt" ∈ (runCycle ⟨fun _ => false, fun _ => false, false, false⟩
        ["a.txt", "b.txt"] (some ["b.txt", "c.txt"])).dist
      ↔ "a.txt" ∈ ["a.txt", "b.txt"]) :=
  cycle_dist_matches_source ⟨fun _ => false, fun _ => false, false, false⟩
    ["a.txt", "b.txt"] (some ["b.txt", "c.txt"])
    (fun h => nomatch h) (fun _ _ _ => rfl) (fun _ _ _ => rfl) "a.txt"

/-- Claim C2: idempotence of a cycle: whenever the source and destination
listings are equal as name sets, one more cycle performs zero copy
operations and zero delete operations. -/
theorem cycle_idempotent_no_ops (env : Env) (src d : List String)
    (heq : ∀ n, n ∈ src ↔ n ∈ d) :
    copyAttemptNames (runCycle env src (some d)).events = []
      ∧ removeAttemptNames (runCycle env src (some d)).events = [] := by
  have hrc : runCycle env src (some d) = runCycleBody env src d [] := rfl
  have hcfilter : src.filter (fun f => !decide (f ∈ d)) = [] :=
    List.filter_eq_nil_iff.mpr (fun f hf => by simp [(heq f).mp hf])
  have hrfilter : d.filter (fun f => !decide (f ∈ src)) = [] :=
    List.filter_eq_nil_iff.mpr (fun f hf => by simp [(heq f).mpr hf])
  rw [hrc, runCycleBody_events]
  constructor
  · simp [copyAttemptNames_append, copyAttemptNames_cons, copyAttemptNames_nil,
      copyAttemptNameOf, copyPhase_attemptNames, removePhase_copyAttemptNames,
      apply_ite copyAttemptNames, hcfilter]
  · simp [removeAttemptNames_append, removeAttemptNames_cons,
      removeAttemptNames_nil, removeAttemptNameOf, removePhase_attemptNames,
      copyPhase_removeAttemptNames, apply_ite removeAttemptNames, hrfilter]

/-- Witness for C2: source and destination both `{a.txt}` (even with an
adversarial failure oracle): no copies, no deletes. -/
theorem cycle_idempotent_no_ops_witness :
    copyAttemptNames (runCycle ⟨fun _ => true, fun _ => true, false, true⟩
        ["a.txt"] (some ["a.txt"])).events = []
      ∧ removeAttemptNames (runCycle ⟨fun _ => true, fun _ => true, false, true⟩
        ["a.txt"] (some ["a.txt"])).events = [] :=
  cycle_idempotent_no_ops ⟨fun _ => true, fun _ => true, false, true⟩
    ["a.txt"] ["a.txt"] (fun _ => Iff.rfl)

/-- Claim C5: frame condition: a name present in both the source and the
destination snapshot is never copied (hence never overwritten) and never
deleted in that cycle, and it is still present afterwards; only
presence-by-name is ever compared. -/
theorem file_in_both_untouched (env : Env) (src d : List String) (n : String)
    (hsrc : n ∈ src) (hdist : n ∈ d) :
    (∀ a ok, Event.copyAttempt n a ok ∉ (runCycle env src (some d)).events)
      ∧ (∀ ok, Event.removeAttempt n ok ∉ (runCycle env src (some d)).events)
      ∧ n ∈ (runCycle env src (some d)).dist := by
  have hrc : runCycle env src (some d) = runCycleBody env src d [] := rfl
  rw [hrc, runCycleBody_events, runCycleBody_dist]
  refine ⟨?_, ?_, ?_⟩
  · intro a ok hmem
    simp only [List.nil_append, List.mem_append, List.mem_cons] at hmem
    rcases hmem with (h | h | h) | h
    · exact absurd h (by simp)
    · exact absurd h (by simp)
    · rcases h with h | h
      · exact ((copyPhase_copyAttempt_mem env d src n a ok).mp h).2.1 hdist
      · have hnames : n ∈ copyAttemptNames
            (removePhase env src d (d ++ (copyPhase env d src).2.1)).1 :=
          mem_copyAttemptNames_iff.mpr ⟨a, ok, h⟩
        rw [removePhase_copyAttemptNames] at hnames
        exact absurd hnames (List.not_mem_nil n)
    · revert h
      split <;> simp
  · intro ok hmem
    simp only [List.nil_append, List.mem_append, List.mem_cons] at hmem
    rcases hmem with (h | h | h) | h
    · exact absurd h (by simp)
    · exact absurd h (by simp)
    · rcases h with h | h
      · have hnames : n ∈ removeAttemptNames (copyPhase env d src).1 :=
          mem_removeAttemptNames_iff.mpr ⟨ok, h⟩
        rw [copyPhase_removeAttemptNames] at hnames
        exact absurd hnames (List.not_mem_nil n)
      · exact ((removePhase_removeAttempt_mem env src d n ok
          (d ++ (copyPhase env d src).2.1)).mp h).2.1 hsrc
    · revert h
      split <;> simp
  · exact (removePhase_dist_mem env src d n (d ++ (copyPhase env d src).2.1)).mpr
      ⟨List.mem_append.mpr (Or.inl hdist), fun h => h.2.1 hsrc⟩

/-- Witness for C5: `b.txt` is in both source and destination; it is
neither copied nor removed, and remains present. -/
theorem file_in_both_untouched_witness :
    (∀ a ok, Event.copyAttempt "b.txt" a ok ∉
        (runCycle ⟨fun _ => false, fun _ => false, false, false⟩
          ["a.txt", "b.txt"] (some ["b.txt", "c.txt"])).events)
      ∧ (∀ ok, Event.removeAttempt "b.txt" ok ∉
        (runCycle ⟨fun _ => false, fun _ => false, false, false⟩
          ["a.txt", "b.txt"] (some ["b.txt", "c.txt"])).events)
      ∧ "b.txt" ∈ (runCycle ⟨fun _ => false, fun _ => false, false, false⟩
          ["a.txt", "b.txt"] (some ["b.txt", "c.txt"])).dist :=
  file_in_both_untouched ⟨fun _ => false, fun _ => false, false, false⟩
    ["a.txt", "b.txt"] ["b.txt", "c.txt"] "b.txt"
    (by decide) (by decide)

theorem cyclePre_mem (ds : Option (List String)) :
    ∀ e ∈ cyclePre ds, e = Event.makedirs := by
  cases ds <;> simp [cyclePre]

theorem cyclePre_copyAttemptNames (ds : Option (List String)) :
    copyAttemptNames (cyclePre ds) = [] := by
  cases ds <;> rfl

theorem cyclePre_removeAttemptNames (ds : Option (List String)) :
    removeAttemptNames (cyclePre ds) = [] := by
  cases ds <;> rfl

theorem cyclePre_numFailedAttempts (ds : Option (List String)) :
    numFailedAttempts (cyclePre ds) = 0 := by
  cases ds <;> rfl

theorem cyclePre_numAlertErrorEvents (ds : Option (List String)) :
    numAlertErrorEvents (cyclePre ds) = 0 := by
  cases ds <;> rfl

theorem cyclePre_numAlertMsgEvents (ds : Option (List String)) :
    numAlertMsgEvents (cyclePre ds) = 0 := by
  cases ds <;> rfl

theorem runCycleBody_mem_events (env : Env) (src d : List String)
    (pre : List Event) (e : Event) :
    e ∈ (runCycleBody env src d pre).events
      ↔ e ∈ pre ∨ e = Event.listSrc src ∨ e = Event.listDist d
        ∨ e ∈ (copyPhase env d src).1
        ∨ e ∈ (removePhase env src d (d ++ (copyPhase env d src).2.1)).1
        ∨ (((copyPhase env d src).2.2
            || (removePhase env src d (d ++ (copyPhase env d src).2.1)).2.2) = true
          ∧ (e = Event.alertError ∨ e = Event.alertMsg "backup error")) := by
  rw [runCycleBody_events]
  by_cases hb : ((copyPhase env d src).2.2
      || (removePhase env src d (d ++ (copyPhase env d src).2.1)).2.2) = true <;>
    simp [hb]

theorem numFailedAttempts_nil : numFailedAttempts [] = 0 := rfl

theorem numAlertErrorEvents_nil : numAlertErrorEvents [] = 0 := rfl

theorem numAlertMsgEvents_nil : numAlertMsgEvents [] = 0 := rfl

theorem numFailedAttempts_cons (e : Event) (l : List Event) :
    numFailedAttempts (e :: l)
      = (if isFailedAttempt e = true then 1 else 0) + numFailedAttempts l := by
  by_cases h : isFailedAttempt e = true <;>
    simp [numFailedAttempts, List.filter_cons, h, Nat.add_comm]

theorem numAlertErrorEvents_cons (e : Event) (l : List Event) :
    numAlertErrorEvents (e :: l)
      = (if isAlertError e = true then 1 else 0) + numAlertErrorEvents l := by
  by_cases h : isAlertError e = true <;>
    simp [numAlertErrorEvents, List.filter_cons, h, Nat.add_comm]

theorem numAlertMsgEvents_cons (e : Event) (l : List Event) :
    numAlertMsgEvents (e :: l)
      = (if isAlertMsg e = true then 1 else 0) + numAlertMsgEvents l := by
  by_cases h : isAlertMsg e = true <;>
    simp [numAlertMsgEvents, List.filter_cons, h, Nat.add_comm]

theorem alertTail_numFailedAttempts :
    numFailedAttempts [Event.alertError, Event.alertMsg "backup error"] = 0 := rfl

theorem alertTail_numAlertErrorEvents :
    numAlertErrorEvents [Event.alertError, Event.alertMsg "backup error"] = 1 := rfl

theorem alertTail_numAlertMsgEvents :
    numAlertMsgEvents [Event.alertError, Event.alertMsg "backup error"] = 1 := rfl

/-- Claim C3: per-file error isolation: the set of attempted copies is
exactly the pending copies and the set of attempted deletes exactly the
pending deletes, whatever the failure oracle says (so a failing copy or
delete aborts nothing, is never retried, and a failing copy never prevents
the delete phase from running); moreover each failing copy or delete is
logged and sets the cycle's error flag. -/
theorem per_file_error_isolation (env : Env) (src : List String)
    (distState : Option (List String))
    (hmk : distState = none → env.mkdirFails = false) :
    copyAttemptNames (runCycle env src distState).events
        = src.filter (fun f => !decide (f ∈ distSnapshot distState))
      ∧ removeAttemptNames (runCycle env src distState).events
        = (distSnapshot distState).filter (fun f => !decide (f ∈ src))
      ∧ (∀ n a, Event.copyAttempt n a false ∈ (runCycle env src distState).events →
          Event.errorLogged n ∈ (runCycle env src distState).events
            ∧ (runCycle env src distState).wasError = true)
      ∧ (∀ n, Event.removeAttempt n false ∈ (runCycle env src distState).events →
          Event.errorLogged n ∈ (runCycle env src distState).events
            ∧ (runCycle env src distState).wasError = true) := by
  rw [runCycle_eq_body env src distState hmk]
  set d := distSnapshot distState with hd
  refine ⟨?_, ?_, ?_, ?_⟩
  · rw [runCycleBody_events]
    simp [copyAttemptNames_append, copyAttemptNames_cons, copyAttemptNames_nil,
      copyAttemptNameOf, copyPhase_attemptNames, removePhase_copyAttemptNames,
      apply_ite copyAttemptNames, cyclePre_copyAttemptNames]
  · rw [runCycleBody_events]
    simp [removeAttemptNames_append, removeAttemptNames_cons,
      removeAttemptNames_nil, removeAttemptNameOf, removePhase_attemptNames,
      copyPhase_removeAttemptNames, apply_ite removeAttemptNames,
      cyclePre_removeAttemptNames]
  · intro n a hmem
    rw [runCycleBody_mem_events] at hmem
    rcases hmem with h | h | h | h | h | ⟨_, h | h⟩
    · exact absurd (cyclePre_mem distState _ h) (by simp)
    · exact absurd h (by simp)
    · exact absurd h (by simp)
    · obtain ⟨hnsrc, hnd, _, hok⟩ := (copyPhase_copyAttempt_mem env d src n a false).mp h
      have hfail : env.copyFails n = true := by
        revert hok; cases env.copyFails n <;> simp
      constructor
      · rw [runCycleBody_mem_events]
        exact Or.inr (Or.inr (Or.inr (Or.inl
          ((copyPhase_errorLogged_mem env d src n).mpr ⟨hnsrc, hnd, hfail⟩))))
      · rw [runCycleBody_wasError]
        have hflag : (copyPhase env d src).2.2 = true :=
          (copyPhase_err_iff env d src).mpr ⟨n, hnsrc, hnd, hfail⟩
        simp [hflag]
    · have hnames : n ∈ copyAttemptNames
          (removePhase env src d (d ++ (copyPhase env d src).2.1)).1 :=
        mem_copyAttemptNames_iff.mpr ⟨a, false, h⟩
      rw [removePhase_copyAttemptNames] at hnames
      exact absurd hnames (List.not_mem_nil n)
    · exact absurd h (by simp)
    · exact absurd h (by simp)
  · intro n hmem
    rw [runCycleBody_mem_events] at hmem
    rcases hmem with h | h | h | h | h | ⟨_, h | h⟩
    · exact absurd (cyclePre_mem distState _ h) (by simp)
    · exact absurd h (by simp)
    · exact absurd h (by simp)
    · have hnames : n ∈ removeAttemptNames (copyPhase env d src).1 :=
        mem_removeAttemptNames_iff.mpr ⟨false, h⟩
      rw [copyPhase_removeAttemptNames] at hnames
      exact absurd hnames (List.not_mem_nil n)
    · obtain ⟨hnd, hns, hok⟩ := (removePhase_removeAttempt_mem env src d n false
        (d ++ (copyPhase env d src).2.1)).mp h
      have hfail : env.removeFails n = true := by
        revert hok; cases env.removeFails n <;> simp
      constructor
      · rw [runCycleBody_mem_events]
        exact Or.inr (Or.inr (Or.inr (Or.inr (Or.inl
          ((removePhase_errorLogged_mem env src d n
            (d ++ (copyPhase env d src).2.1)).mpr ⟨hnd, hns, hfail⟩)))))
      · rw [runCycleBody_wasError]
        have hflag : (removePhase env src d (d ++ (copyPhase env d src).2.1)).2.2
            = true :=
          (removePhase_err_iff env src d (d ++ (copyPhase env d src).2.1)).mpr
            ⟨n, hnd, hns, hfail⟩
        simp [hflag]
    · exact absurd h (by simp)
    · exact absurd h (by simp)

/-- Witness for C3: the copy of `a.txt` fails, yet `b.txt` is still
copied and `c.txt` still deleted; the failure is logged and flags the
cycle. -/
theorem per_file_error_isolation_witness :
    copyAttemptNames (runCycle ⟨fun f => f == "a.txt", fun _ => false, false, false⟩
        ["a.txt", "b.txt"] (some ["b.txt", "c.txt"])).events
        = ["a.txt", "b.txt"].filter
            (fun f => !decide (f ∈ distSnapshot (some ["b.txt", "c.txt"])))
      ∧ (Event.errorLogged "a.txt" ∈
          (runCycle ⟨fun f => f == "a.txt", fun _ => false, false, false⟩
            ["a.txt", "b.txt"] (some ["b.txt", "c.txt"])).events
        ∧ (runCycle ⟨fun f => f == "a.txt", fun _ => false, false, false⟩
            ["a.txt", "b.txt"] (some ["b.txt", "c.txt"])).wasError = true) :=
  ⟨(per_file_error_isolation ⟨fun f => f == "a.txt", fun _ => false, false, false⟩
      ["a.txt", "b.txt"] (some ["b.txt", "c.txt"]) (fun h => nomatch h)).1,
   (per_file_error_isolation ⟨fun f => f == "a.txt", fun _ => false, false, false⟩
      ["a.txt", "b.txt"] (some ["b.txt", "c.txt"]) (fun h => nomatch h)).2.2.1
     "a.txt" CopyApi.copy (by decide)⟩

/-- Claim C4: alert exactly when an error occurred: a cycle with zero
failing copy/delete operations triggers no `alert_error` call and no
`alert_msg` call; a cycle with at least one failing operation triggers
exactly one `alert_error` call and exactly one `alert_msg` call, however
many files failed. -/
theorem alert_iff_error (env : Env) (src : List String)
    (distState : Option (List String))
    (hmk : distState = none → env.mkdirFails = false) :
    (numFailedAttempts (runCycle env src distState).events = 0 →
        numAlertErrorEvents (runCycle env src distState).events = 0
          ∧ numAlertMsgEvents (runCycle env src distState).events = 0)
      ∧ (0 < numFailedAttempts (runCycle env src distState).events →
        numAlertErrorEvents (runCycle env src distState).events = 1
          ∧ numAlertMsgEvents (runCycle env src distState).events = 1) := by
  rw [runCycle_eq_body env src distState hmk]
  set d := distSnapshot distState with hd
  rw [runCycleBody_events]
  have hcEv0 : numAlertErrorEvents (copyPhase env d src).1 = 0 :=
    numAlertErrorEvents_eq_zero (fun e he => (copyPhase_events_shape env d src e he).1)
  have hcMsg0 : numAlertMsgEvents (copyPhase env d src).1 = 0 :=
    numAlertMsgEvents_eq_zero (fun e he => (copyPhase_events_shape env d src e he).2)
  have hrEv0 : numAlertErrorEvents
      (removePhase env src d (d ++ (copyPhase env d src).2.1)).1 = 0 :=
    numAlertErrorEvents_eq_zero
      (fun e he => (removePhase_events_shape env src d _ e he).1)
  have hrMsg0 : numAlertMsgEvents
      (removePhase env src d (d ++ (copyPhase env d src).2.1)).1 = 0 :=
    numAlertMsgEvents_eq_zero
      (fun e he => (removePhase_events_shape env src d _ e he).2)
  by_cases hcond : ((copyPhase env d src).2.2
      || (removePhase env src d (d ++ (copyPhase env d src).2.1)).2.2) = true
  · have hone : (copyPhase env d src).2.2 = true
        ∨ (removePhase env src d (d ++ (copyPhase env d src).2.1)).2.2 = true := by
      revert hcond
      cases (copyPhase env d src).2.2 <;> simp
    have hnf : numFailedAttempts (copyPhase env d src).1
        + numFailedAttempts
            (removePhase env src d (d ++ (copyPhase env d src).2.1)).1 ≠ 0 := by
      intro hz
      rcases hone with h | h
      · rw [(copyPhase_failedAttempts env d src).mp (by omega)] at h
        cases h
      · rw [(removePhase_failedAttempts env src d _).mp (by omega)] at h
        cases h
    simp [numFailedAttempts_append, numAlertErrorEvents_append,
      numAlertMsgEvents_append, numFailedAttempts_cons, numAlertErrorEvents_cons,
      numAlertMsgEvents_cons, cyclePre_numFailedAttempts,
      cyclePre_numAlertErrorEvents, cyclePre_numAlertMsgEvents,
      alertTail_numFailedAttempts, alertTail_numAlertErrorEvents,
      alertTail_numAlertMsgEvents, numFailedAttempts_nil,
      numAlertErrorEvents_nil, numAlertMsgEvents_nil, isFailedAttempt,
      isAlertError, isAlertMsg, hcond, hcEv0, hcMsg0, hrEv0, hrMsg0]
    omega
  · have hcf : (copyPhase env d src).2.2 = false := by
      revert hcond
      cases (copyPhase env d src).2.2 <;> simp
    have hrf : (removePhase env src d (d ++ (copyPhase env d src).2.1)).2.2
        = false := by
      revert hcond
      cases (removePhase env src d (d ++ (copyPhase env d src).2.1)).2.2 <;> simp
    have hc0 : numFailedAttempts (copyPhase env d src).1 = 0 :=
      (copyPhase_failedAttempts env d src).mpr hcf
    have hr0 : numFailedAttempts
        (removePhase env src d (d ++ (copyPhase env d src).2.1)).1 = 0 :=
      (removePhase_failedAttempts env src d _).mpr hrf
    simp [numFailedAttempts_append, numAlertErrorEvents_append,
      numAlertMsgEvents_append, numFailedAttempts_cons, numAlertErrorEvents_cons,
      numAlertMsgEvents_cons, cyclePre_numFailedAttempts,
      cyclePre_numAlertErrorEvents, cyclePre_numAlertMsgEvents,
      numFailedAttempts_nil, numAlertErrorEvents_nil, numAlertMsgEvents_nil,
      isFailedAttempt, isAlertError, isAlertMsg, hcond, hc0, hr0,
      hcEv0, hcMsg0, hrEv0, hrMsg0]

/-- Witness for C4: one failing copy (of `a.txt`) yields exactly one
`alert_error` call and one `alert_msg` call. -/
theorem alert_iff_error_witness :
    0 < numFailedAttempts (runCycle ⟨fun f => f == "a.txt", fun _ => false,
        false, false⟩ ["a.txt"] (some [])).events
      ∧ (numAlertErrorEvents (runCycle ⟨fun f => f == "a.txt", fun _ => false,
          false, false⟩ ["a.txt"] (some [])).events = 1
        ∧ numAlertMsgEvents (runCycle ⟨fun f => f == "a.txt", fun _ => false,
          false, false⟩ ["a.txt"] (some [])).events = 1) :=
  ⟨by decide,
   (alert_iff_error ⟨fun f => f == "a.txt", fun _ => false, false, false⟩
      ["a.txt"] (some []) (fun h => nomatch h)).2 (by decide)⟩

/-- Claim C8, as stated, is false of the code: it is not true that every
copy performed by a cycle preserves metadata, because `make_re_backup`
copies with `shutil.copy` (data and permission bits only), not
`shutil.copy2`.  Concrete input: source `{a.txt}`, empty existing
destination, no failures — the cycle performs a copy whose API does not
preserve metadata. -/
theorem copy_preserves_metadata_counterexample :
    ¬ ∀ (env : Env) (src : List String) (distState : Option (List String))
        (n : String) (a : CopyApi) (ok : Bool),
        Event.copyAttempt n a ok ∈ (runCycle env src distState).events →
          a.preservesMetadata = true := by
  intro h
  have hc := h ⟨fun _ => false, fun _ => false, false, false⟩ ["a.txt"] (some [])
    "a.txt" CopyApi.copy true (by decide)
  simp [CopyApi.preservesMetadata] at hc

/-- Claim C8 (amended): every copy performed by a cycle is a
`shutil.copy`, transferring the file from source to destination with its
data and permission bits but not its full metadata (timestamps etc.);
`preservesMetadata` is false for it. -/
theorem copy_uses_shutil_copy (env : Env) (src : List String)
    (distState : Option (List String)) (n : String) (a : CopyApi) (ok : Bool)
    (hmem : Event.copyAttempt n a ok ∈ (runCycle env src distState).events) :
    a = CopyApi.copy ∧ a.preservesMetadata = false := by
  by_cases hmk : distState = none ∧ env.mkdirFails = true
  · obtain ⟨h1, h2⟩ := hmk
    subst h1
    rw [runCycle_mkdirFail env src h2] at hmem
    exact absurd hmem (List.not_mem_nil _)
  · have hmk' : distState = none → env.mkdirFails = false := by
      intro h1
      by_cases h2 : env.mkdirFails = true
      · exact absurd ⟨h1, h2⟩ hmk
      · simpa using h2
    rw [runCycle_eq_body env src distState hmk',
      runCycleBody_mem_events] at hmem
    rcases hmem with h | h | h | h | h | ⟨_, h | h⟩
    · exact absurd (cyclePre_mem distState _ h) (by simp)
    · exact absurd h (by simp)
    · exact absurd h (by simp)
    · have ha := ((copyPhase_copyAttempt_mem env (distSnapshot distState) src
        n a ok).mp h).2.2.1
      exact ⟨ha, by rw [ha]; rfl⟩
    · have hnames : n ∈ copyAttemptNames
          (removePhase env src (distSnapshot distState)
            (distSnapshot distState
              ++ (copyPhase env (distSnapshot distState) src).2.1)).1 :=
        mem_copyAttemptNames_iff.mpr ⟨a, ok, h⟩
      rw [removePhase_copyAttemptNames] at hnames
      exact absurd hnames (List.not_mem_nil n)
    · exact absurd h (by simp)
    · exact absurd h (by simp)

/-- Witness for the amended C8: the copy of `a.txt` into an empty
destination uses `shutil.copy`, which does not preserve metadata. -/
theorem copy_uses_shutil_copy_witness :
    Event.copyAttempt "a.txt" CopyApi.copy true ∈
        (runCycle ⟨fun _ => false, fun _ => false, false, false⟩
          ["a.txt"] (some [])).events
      ∧ (CopyApi.copy = CopyApi.copy
        ∧ CopyApi.preservesMetadata CopyApi.copy = false) :=
  ⟨by decide,
   copy_uses_shutil_copy ⟨fun _ => false, fun _ => false, false, false⟩
     ["a.txt"] (some []) "a.txt" CopyApi.copy true (by decide)⟩

/-- Claim C9: when the destination directory is absent at cycle start it
is created by `os.makedirs` (which creates parents) before the two
listings are taken and before any copy or delete logic; a failure to
create it is not caught: the cycle raises with no phase work done and the
loop terminates, running no further cycle. -/
theorem makedirs_first_and_fatal (env : Env) (src : List String)
    (rest : List (Env × List String)) :
    (env.mkdirFails = false →
      (runCycle env src none).events.take 3
        = [Event.makedirs, Event.listSrc src, Event.listDist []])
      ∧ (env.mkdirFails = true →
        (runCycle env src none).events = []
          ∧ (runCycle env src none).raised = some PyError.mkdirError
          ∧ runLoop ((env, src) :: rest) none = ([], some PyError.mkdirError)) := by
  constructor
  · intro hmk
    have hrc : runCycle env src none = runCycleBody env src [] [Event.makedirs] := by
      simp [runCycle, hmk]
    rw [hrc, runCycleBody_events]
    simp
  · intro hmk
    have hrc := runCycle_mkdirFail env src hmk
    have hraised : (runCycle env src none).raised = some PyError.mkdirError := by
      rw [hrc]
    refine ⟨by rw [hrc], hraised, ?_⟩
    rw [runLoop_cons_raise hraised, hrc]

/-- Witness for C9: with a fresh destination the first three events are
`makedirs`, then the two listings; with a failing `makedirs` the loop
stops at once and a second pending cycle never runs. -/
theorem makedirs_first_and_fatal_witness :
    (runCycle ⟨fun _ => false, fun _ => false, false, false⟩
        ["a.txt"] none).events.take 3
      = [Event.makedirs, Event.listSrc ["a.txt"], Event.listDist []]
    ∧ runLoop [(⟨fun _ => false, fun _ => false, true, false⟩, ["a.txt"]),
        (⟨fun _ => false, fun _ => false, false, false⟩, ["b.txt"])] none
      = ([], some PyError.mkdirError) :=
  ⟨(makedirs_first_and_fatal ⟨fun _ => false, fun _ => false, false, false⟩
      ["a.txt"] []).1 rfl,
   ((makedirs_first_and_fatal ⟨fun _ => false, fun _ => false, true, false⟩
      ["a.txt"] [(⟨fun _ => false, fun _ => false, false, false⟩, ["b.txt"])]).2
      rfl).2.2⟩

/-- Claim C10 (implicit): `alert_msg` does its text-to-speech work with no
exception handling, so an engine failure propagates; `make_re_backup`
calls `alert_msg` outside any `try`, so in a cycle whose error flag is set
a failing engine raises out of the cycle and terminates the otherwise
error-tolerant loop. -/
theorem alert_msg_failure_fatal (env : Env) (src d : List String)
    (rest : List (Env × List String))
    (htts : env.ttsFails = true)
    (herr : (runCycle env src (some d)).wasError = true) :
    alert_msg env "backup error" = Except.error PyError.ttsError
      ∧ (runCycle env src (some d)).raised = some PyError.ttsError
      ∧ runLoop ((env, src) :: rest) (some d)
          = ((runCycle env src (some d)).events, some PyError.ttsError) := by
  have h1 : alert_msg env "backup error" = Except.error PyError.ttsError := by
    simp [alert_msg, htts]
  have hrc : runCycle env src (some d) = runCycleBody env src d [] := rfl
  have h2 : (runCycle env src (some d)).raised = some PyError.ttsError := by
    rw [hrc, runCycleBody_wasError] at herr
    rw [hrc, runCycleBody_raised]
    simp [herr, htts]
  exact ⟨h1, h2, runLoop_cons_raise h2⟩

/-- Witness for C10: a failing copy of `a.txt` plus a failing speech
engine make the cycle raise `ttsError` and end the loop. -/
theorem alert_msg_failure_fatal_witness :
    (runCycle ⟨fun f => f == "a.txt", fun _ => false, false, true⟩
        ["a.txt"] (some [])).raised = some PyError.ttsError
      ∧ runLoop [(⟨fun f => f == "a.txt", fun _ => false, false, true⟩,
          ["a.txt"])] (some [])
        = ((runCycle ⟨fun f => f == "a.txt", fun _ => false, false, true⟩
            ["a.txt"] (some [])).events, some PyError.ttsError) :=
  ⟨(alert_msg_failure_fatal ⟨fun f => f == "a.txt", fun _ => false, false, true⟩
      ["a.txt"] [] [] rfl (by decide)).2.1,
   (alert_msg_failure_fatal ⟨fun f => f == "a.txt", fun _ => false, false, true⟩
      ["a.txt"] [] [] rfl (by decide)).2.2⟩

/-! ## Claims about the notification controller -/

/-- Claim C6: each of the three alerts first attempts the custom override
sound — the base-name of the corresponding default path, fixed at
construction and resolved against the current working directory — and
attempts the corresponding default sound (the path supplied at
construction) if and only if the custom attempt fails; after a successful
custom attempt the default is never attempted. -/
theorem alert_custom_override_fallback
    (dsucc derr dwarn : String) (env : AudioEnv) (s : MixerState) :
    ((NotificationController.init dsucc derr dwarn).alertSuccessBody env s).1
        = (if (alert_sound env s (os_path_basename dsucc)).1
           then [os_path_basename dsucc]
           else [os_path_basename dsucc, dsucc])
      ∧ ((NotificationController.init dsucc derr dwarn).alertWarningBody env s).1
        = (if (alert_sound env s (os_path_basename dwarn)).1
           then [os_path_basename dwarn]
           else [os_path_basename dwarn, dwarn])
      ∧ ((NotificationController.init dsucc derr dwarn).alertErrorBody env s).1
        = (if (alert_sound env s (os_path_basename derr)).1
           then [os_path_basename derr]
           else [os_path_basename derr, derr]) := by
  refine ⟨?_, ?_, ?_⟩
  · cases hok : (alert_sound env s (os_path_basename dsucc)).1 <;>
      simp [NotificationController.alertSuccessBody, NotificationController.init,
        hok]
  · cases hok : (alert_sound env s (os_path_basename dwarn)).1 <;>
      simp [NotificationController.alertWarningBody, NotificationController.init,
        hok]
  · cases hok : (alert_sound env s (os_path_basename derr)).1 <;>
      simp [NotificationController.alertErrorBody, NotificationController.init,
        hok]

/-- Claim C7, as stated, is false of the code: `alert_sound` does not
release the audio resource regardless of outcome, because
`pygame.mixer.quit()` sits inside the `try` after playback; when
`pygame.mixer.music.load` raises (missing file), the call returns `False`
with the mixer still initialized. -/
theorem play_sound_releases_counterexample :
    ¬ ∀ (env : AudioEnv) (s : MixerState) (path : String),
        ((alert_sound env s path).2).initialized = false := by
  intro h
  exact absurd (h ⟨false, fun _ => true⟩ ⟨false⟩ "missing.mp3") (by decide)

/-- Claim C7 (amended): `alert_sound` returns `False` rather than letting
an exception propagate when any step fails (device unavailable at `init`,
missing file or decode failure at `load`), leaving the mixer in its
at-raise state; the audio resource is released (`pygame.mixer.quit`) when
— and only on the path where — playback fully succeeds.  The failure path
still does not wedge the device: a subsequent call with a working device
and loadable file succeeds from any resulting mixer state. -/
theorem play_sound_false_not_raise (env : AudioEnv) (s : MixerState)
    (path : String) :
    (∀ s', alert_soundBody env s path = Except.error s' →
        alert_sound env s path = (false, s'))
      ∧ ((alert_sound env s path).1 = true →
        ((alert_sound env s path).2).initialized = false)
      ∧ (∀ env₂ path₂, env₂.initFails = false → env₂.loadFails path₂ = false →
        (alert_sound env₂ (alert_sound env s path).2 path₂).1 = true) := by
  have hbody_ok : ∀ s', alert_soundBody env s path = Except.ok s' →
      s' = ⟨false⟩ := by
    intro s' h
    unfold alert_soundBody at h
    split_ifs at h
    simp_all
  refine ⟨?_, ?_, ?_⟩
  · intro s' hbody
    simp [alert_sound, hbody]
  · intro hok
    cases hbody : alert_soundBody env s path with
    | ok s' =>
      have hs' := hbody_ok s' hbody
      simp [alert_sound, hbody, hs']
    | error s' =>
      simp [alert_sound, hbody] at hok
  · intro env₂ path₂ h1 h2
    unfold alert_sound alert_soundBody
    simp [h1, h2]

/-- Witness for the amended C7: a failing load returns `(False, mixer
still initialized)` instead of raising, and a subsequent call with a valid
file still succeeds. -/
theorem play_sound_false_not_raise_witness :
    alert_sound ⟨false, fun _ => true⟩ ⟨false⟩ "missing.mp3" = (false, ⟨true⟩)
      ∧ (alert_sound ⟨false, fun _ => false⟩
          (alert_sound ⟨false, fun _ => true⟩ ⟨false⟩ "missing.mp3").2
          "ok.mp3").1 = true :=
  ⟨(play_sound_false_not_raise ⟨false, fun _ => true⟩ ⟨false⟩ "missing.mp3").1
      ⟨true⟩ rfl,
   (play_sound_false_not_raise ⟨false, fun _ => true⟩ ⟨false⟩
      "missing.mp3").2.2 ⟨false, fun _ => false⟩ "ok.mp3" rfl rfl⟩
